import Mathlib

/-!
Verification development for the accelerator-core session state tracker and
call-lifecycle orchestrator.

The embedding follows the TypeScript sources:
* `State` mirrors `src/sdk-wrapper/state.ts` (session state: publishers,
  subscribers, streams, streamMap).
* `Communication` mirrors the call orchestrator module (`ableToJoin`,
  `publish`, `subscribe`, `unsubscribe`, `startCall`, `onStreamCreated`,
  `validateOptions`).
* `EventBus` mirrors the event registry of the session-core facade
  (`registerEvents`, `on`, `triggerEvent`).

JavaScript maps (`Record<string, T>`) are embedded as association lists with
string keys.  Asynchronous external provider calls (publish / subscribe /
unsubscribe) are embedded by passing their completion outcome as an explicit
parameter and recording the issued calls in an output list.  A synchronous
JavaScript exception is embedded as an explicit `Option String` "thrown"
component threaded through the state mutators: `(st, none)` is normal
completion, `(st, some e)` means the operation threw `e` leaving the state
`st` reached at the throw point.  Promise semantics: a throw inside a
`new Promise` executor rejects the promise; a throw inside an asynchronous
SDK completion callback escapes and leaves the promise unsettled.
-/

namespace AccCore

/-- A JavaScript object used as a string-keyed map, embedded as an
association list.  `upsert` models property assignment (last write wins),
`eraseKey` models `delete`, `find` models property read. -/
abbrev SMap (α : Type) := List (String × α)

/-- Property read `m[key]`: the first binding for `key`, if any. -/
def SMap.find {α : Type} : SMap α → String → Option α
  | [], _ => none
  | (k, v) :: m, key => if key = k then some v else SMap.find m key

/-- `delete m[key]`: drop every binding for `key`. -/
def SMap.eraseKey {α : Type} (k : String) : SMap α → SMap α
  | [] => []
  | (k2, v) :: m =>
      if k2 = k then SMap.eraseKey k m else (k2, v) :: SMap.eraseKey k m

/-- Property assignment `m[key] = v`. -/
def SMap.upsert {α : Type} (k : String) (v : α) (m : SMap α) : SMap α :=
  (k, v) :: SMap.eraseKey k m

@[simp] theorem SMap.find_nil {α : Type} (key : String) :
    SMap.find ([] : SMap α) key = none := rfl

theorem SMap.find_eraseKey {α : Type} (k key : String) (m : SMap α) :
    (SMap.eraseKey k m).find key = if key = k then none else m.find key := by
  induction m with
  | nil => simp [SMap.eraseKey]
  | cons p m ih =>
      obtain ⟨k2, v⟩ := p
      by_cases h2 : k2 = k
      · subst h2
        by_cases hk : key = k2
        · subst hk
          simp [SMap.eraseKey, SMap.find, ih]
        · simp [SMap.eraseKey, SMap.find, hk, ih]
      · by_cases hk : key = k2
        · subst hk
          simp [SMap.eraseKey, SMap.find, h2, ih]
        · simp [SMap.eraseKey, SMap.find, h2, hk, ih]

@[simp] theorem SMap.find_upsert {α : Type} (k key : String) (v : α) (m : SMap α) :
    (SMap.upsert k v m).find key = if key = k then some v else m.find key := by
  by_cases h : key = k
  · simp [SMap.upsert, SMap.find, h]
  · simp [SMap.upsert, SMap.find, h, SMap.find_eraseKey]

theorem SMap.find_isSome_of_mem_keys {α : Type} (m : SMap α) (key : String)
    (h : key ∈ m.map Prod.fst) : ∃ v, m.find key = some v := by
  induction m with
  | nil => simp at h
  | cons p m ih =>
      obtain ⟨k2, v⟩ := p
      by_cases hk : key = k2
      · exact ⟨v, by simp [SMap.find, hk]⟩
      · have h2 : key ∈ m.map Prod.fst := by
          rcases List.mem_map.mp h with ⟨q, hq, hEq⟩
          rcases List.mem_cons.mp hq with h1 | h1
          · exact absurd (h1 ▸ hEq).symm hk
          · exact List.mem_map.mpr ⟨q, h1, hEq⟩
        obtain ⟨w, hw⟩ := ih h2
        exact ⟨w, by simp [SMap.find, hk, hw]⟩

/-- An OpenTok stream (network-level media source).  `videoType` is the
media kind; `none` embeds the absent `videoType` of a SIP participant. -/
structure Stream where
  streamId : String
  videoType : Option String
  deriving DecidableEq, Repr

/-- A local subscriber handle: renders one incoming remote stream. -/
structure Subscriber where
  id : String
  stream : Stream
  deriving DecidableEq, Repr

/-- A local publisher handle for an outgoing stream. -/
structure Publisher where
  id : String
  stream : Stream
  deriving DecidableEq, Repr

/-- A value stored in the session `streams` map.  Normally a genuine
stream (`st`), but `State.all` (which passes `this.streams` as the target
of `Object.assign`) copies `streamMap` entries (string values) and the
`publishers`/`subscribers`/`meta` properties of `getPubSub()` into the same
object; those non-stream values are embedded as `junk`. -/
inductive StreamsVal where
  | st (s : Stream)
  | junk
  deriving DecidableEq, Repr

/-- Modelled from the spec: the `StreamCollection` registry class is
imported by `state.ts` from `sdk-wrapper/models`, a file missing from the
sources.  Per the spec it is a per-kind mapping from local handle
identifier to handle, with a `camera` and a `screen` collection; the `sip`
kind (used for streams that report no explicit kind, and read directly by
`Communication.enableRemoteAV`) is given its own collection as well. -/
structure StreamCollection (T : Type) where
  camera : SMap T
  screen : SMap T
  sip : SMap T
  deriving DecidableEq, Repr

/-- Property read `collection[kind]`: `none` embeds the JavaScript
`undefined` obtained when reading a property that does not exist. -/
def StreamCollection.get {T : Type} (c : StreamCollection T) (k : String) :
    Option (SMap T) :=
  if k = "camera" then some c.camera
  else if k = "screen" then some c.screen
  else if k = "sip" then some c.sip
  else none

/-- Replace the collection stored under kind `k` (no-op for unknown kinds;
unreachable in the development, callers go through `addStream` /
`removeStream` which fault first). -/
def StreamCollection.setB {T : Type} (c : StreamCollection T) (k : String)
    (b : SMap T) : StreamCollection T :=
  if k = "camera" then { c with camera := b }
  else if k = "screen" then { c with screen := b }
  else if k = "sip" then { c with sip := b }
  else c

/-- Modelled from the spec: registry `add` inserts the handle under the
given kind keyed by the handle identifier, overwriting on duplicate key.
A `none` kind (the absent `videoType` the sources pass through unchecked)
or an unknown kind faults like the JavaScript property write on
`undefined` would. -/
def StreamCollection.addStream {T : Type} (c : StreamCollection T)
    (ty : Option String) (key : String) (v : T) :
    Except String (StreamCollection T) :=
  match ty with
  | none => .error "TypeError: cannot set property of undefined"
  | some k =>
      match c.get k with
      | none => .error "TypeError: cannot set property of undefined"
      | some b => .ok (c.setB k (b.upsert key v))

/-- Modelled from the spec: registry `remove` deletes the keyed entry, with
no error when the key is absent.  A `none` or unknown kind faults. -/
def StreamCollection.removeStream {T : Type} (c : StreamCollection T)
    (ty : Option String) (key : String) :
    Except String (StreamCollection T) :=
  match ty with
  | none => .error "TypeError: cannot read property of undefined"
  | some k =>
      match c.get k with
      | none => .error "TypeError: cannot read property of undefined"
      | some b => .ok (c.setB k (b.eraseKey key))

/-- The session state of `src/sdk-wrapper/state.ts`: one registry of
publishers, one of subscribers, the map of all streams known to the
session, and the map from network stream id to local handle id.
Credentials, connection flag and the opaque session handle carry no
state-machine content and are omitted. -/
structure State where
  publishers : StreamCollection Publisher
  subscribers : StreamCollection Subscriber
  streams : SMap StreamsVal
  streamMap : SMap String
  deriving DecidableEq, Repr

/-- Result of a state mutator: the reached state plus `some e` when the
JavaScript would have thrown `e` at that point. -/
abbrev JsRes := State × Option String

/-- `state.ts` `addPublisher`: insert into the publisher registry under the
given kind, then record `streamMap[publisher.stream.streamId] = publisher.id`.
A registry fault (unknown kind) throws before the `streamMap` write. -/
def State.addPublisher (st : State) (ty : String) (p : Publisher) : JsRes :=
  match st.publishers.addStream (some ty) p.id p with
  | .error e => (st, some e)
  | .ok pubs =>
      ({ st with
          publishers := pubs
          streamMap := st.streamMap.upsert p.stream.streamId p.id }, none)

/-- `state.ts` `addSubscriber`: insert into the subscriber registry under
`subscriber.stream.videoType` (passed through unchecked — no fallback),
then record `streamMap[subscriber.stream.streamId] = subscriber.id`. -/
def State.addSubscriber (st : State) (sub : Subscriber) : JsRes :=
  match st.subscribers.addStream sub.stream.videoType sub.id sub with
  | .error e => (st, some e)
  | .ok subs =>
      ({ st with
          subscribers := subs
          streamMap := st.streamMap.upsert sub.stream.streamId sub.id }, none)

/-- A value reaching `State.removeSubscriber`'s only parameter.  The typed
signature takes a subscriber, but the orchestrator's `unsubscribe` passes
the kind string as first argument (`state.removeSubscriber(type, subscriber)`),
and `State.removeStream` can pass the `undefined` of a failed lookup. -/
inductive JsSubArg where
  | sub (s : Subscriber)
  | str (s : String)
  | undef
  deriving DecidableEq, Repr

/-- `state.ts` `removeSubscriber(subscriber)`: evaluates
`subscriber.stream.videoType` and removes the subscriber from the registry.
On a string argument `.stream` is `undefined`, so reading `.videoType`
throws; on `undefined` reading `.stream` already throws. -/
def State.removeSubscriber (st : State) (arg : JsSubArg) : JsRes :=
  match arg with
  | .sub s =>
      match st.subscribers.removeStream s.stream.videoType s.id with
      | .error e => (st, some e)
      | .ok subs => ({ st with subscribers := subs }, none)
  | .str _ => (st, some "TypeError: cannot read videoType of undefined")
  | .undef => (st, some "TypeError: cannot read stream of undefined")

/-- `state.ts` `addStream`: `this.streams[stream.streamId] = stream`. -/
def State.addStream (st : State) (stream : Stream) : State :=
  { st with streams := st.streams.upsert stream.streamId (.st stream) }

/-- `state.ts` `removeStream`: read the mapped subscriber id, delete the
`streamMap` and `streams` entries, then remove the subscriber found via
`this.subscribers[type][subscriberId]`.  When `type` is not a registry
kind the indexing throws (after the deletions); when the bucket lookup
misses, `removeSubscriber(undefined)` throws. -/
def State.removeStream (st : State) (stream : Stream) : JsRes :=
  let subscriberId := st.streamMap.find stream.streamId
  let st1 : State :=
    { st with
        streamMap := st.streamMap.eraseKey stream.streamId
        streams := st.streams.eraseKey stream.streamId }
  match stream.videoType with
  | none => (st1, some "TypeError: cannot read property of undefined")
  | some ty =>
      match st1.subscribers.get ty with
      | none => (st1, some "TypeError: cannot read property of undefined")
      | some bucket =>
          match subscriberId.bind (fun i => bucket.find i) with
          | none => State.removeSubscriber st1 .undef
          | some sub => State.removeSubscriber st1 (.sub sub)

/-- `state.ts` `all()`: `Object.assign(this.streams, this.streamMap,
this.connected, this.getPubSub())`.  The target of the merge is
`this.streams` itself, so every `streamMap` entry overwrites the stream
stored under the same id with a plain string, and the `publishers`,
`subscribers` and `meta` properties of the `getPubSub()` snapshot are
copied in as well; all of these non-stream values are embedded as `junk`.
The returned object's `subscribers` property is the subscriber registry,
read off the resulting state unchanged. -/
def State.all (st : State) : State :=
  let s1 := st.streamMap.foldl (fun acc p => acc.upsert p.1 .junk) st.streams
  let s2 := ((s1.upsert "publishers" .junk).upsert "subscribers" .junk).upsert
    "meta" .junk
  { st with streams := s2 }

/-- Modelled from the spec: `util.properCase` (the `util` module is not in
the sources) capitalizes the kind to build the kind-specific event names
such as `subscribeToCamera`. -/
def properCase (s : String) : String := s.capitalize

/-- The constructor options of the orchestrator that carry policy content
(`connectionLimit`, `autoSubscribe`, `subscribeOnly`).  `none` embeds an
absent option.  The required `core` / `state` / `analytics` handles and the
UI properties are dependency wiring with no state-machine content. -/
structure CommOptions where
  connectionLimit : Option Nat
  autoSubscribe : Option Bool
  subscribeOnly : Option Bool
  deriving DecidableEq, Repr

/-- The policy fields the orchestrator stores at construction, plus the
`active` flag (initially false). -/
structure CommConfig where
  active : Bool
  connectionLimit : Option Nat
  autoSubscribe : Bool
  subscribeOnly : Bool
  deriving DecidableEq, Repr

/-- `Communication.validateOptions`: stores
`connectionLimit = options.connectionLimit || null` (so `0` and absence
both become null), `autoSubscribe = options.autoSubscribe ? autoSubscribe : true`
and `subscribeOnly = options.subscribeOnly ? subscribeOnly : false`
(JavaScript truthiness tests on the raw option values). -/
def Communication.validateOptions (options : CommOptions) : CommConfig :=
  { active := false
    connectionLimit :=
      match options.connectionLimit with
      | some n => if n = 0 then none else some n
      | none => none
    autoSubscribe :=
      match options.autoSubscribe with
      | some b => if b then b else true
      | none => true
    subscribeOnly :=
      match options.subscribeOnly with
      | some b => if b then b else false
      | none => false }

/-- The filter of `ableToJoin`:
`Object.values(this.state.getStreams()).filter(s => s.videoType === 'camera')`.
Non-stream values copied in by `State.all` have no `videoType` and are
never counted. -/
def countCameraStreams (streams : SMap StreamsVal) : Nat :=
  (streams.filter (fun p =>
    match p.2 with
    | .st s => decide (s.videoType = some "camera")
    | .junk => false)).length

/-- `Communication.ableToJoin`: true when `!this.connectionLimit`
(no limit configured, or a limit of 0 — both falsy), otherwise true iff
the camera-stream count is strictly below the limit. -/
def Communication.ableToJoin (connectionLimit : Option Nat)
    (streams : SMap StreamsVal) : Bool :=
  match connectionLimit with
  | none => true
  | some n => if n = 0 then true else decide (countCameraStreams streams < n)

/-- JavaScript truthiness of a possibly-absent string value: absent
(`undefined`) and the empty string are falsy. -/
def truthyStr (v : Option String) : Bool :=
  match v with
  | none => false
  | some s => decide (s ≠ "")

/-- An external provider call issued by the orchestrator. -/
inductive ExtCall where
  | subscribeCall (s : Stream)
  | unsubscribeCall (sub : Subscriber)
  | publishCall
  deriving DecidableEq, Repr

/-- How a `subscribe` / `unsubscribe` promise settles.  `resolved none`
embeds resolving with `undefined`; `threw` means a synchronous exception
escaped from an SDK completion callback, leaving the promise unsettled. -/
inductive SubOutcome where
  | resolved (v : Option Subscriber)
  | rejected (e : String)
  | threw (e : String)
  deriving DecidableEq, Repr

/-- Result of one `subscribe` / `unsubscribe` invocation: settled outcome,
session state afterwards, external calls issued and events triggered. -/
structure SubRes where
  outcome : SubOutcome
  state : State
  calls : List ExtCall
  events : List String
  deriving DecidableEq, Repr

/-- `Communication.subscribe(stream, subscriberProperties, networkTest)`.
The kind is `pathOr('sip', 'videoType', stream)`.  If `streamMap[streamId]`
is truthy (a non-empty handle id) and this is not a network test, it
resolves with
`state.all().subscribers[type][streamMap[streamId]]` without issuing an
external call (note `all()` pollutes the streams map, see `State.all`).
Otherwise it issues the external subscribe (its completion outcome is the
`ext` parameter): on error the promise rejects with no state change; on
success it runs `state.addSubscriber`, triggers the kind-specific
subscribed event (plus the legacy screen event) and resolves with the new
subscriber.  A throw inside the completion callback (e.g. `addSubscriber`
faulting on a kind the registry lacks) escapes, leaving the promise
unsettled.  Container resolution and subscriber properties affect only the
DOM and the external call's options, not the tracked state. -/
def Communication.subscribe (st : State) (stream : Stream)
    (networkTest : Bool) (ext : Except String Subscriber) : SubRes :=
  let ty := stream.videoType.getD "sip"
  if truthyStr (st.streamMap.find stream.streamId) && !networkTest then
    let stAll := st.all
    match stAll.subscribers.get ty with
    | none =>
        { outcome := .rejected "TypeError: cannot read property of undefined"
          state := stAll, calls := [], events := [] }
    | some bucket =>
        { outcome := .resolved
            ((st.streamMap.find stream.streamId).bind (fun i => bucket.find i))
          state := stAll, calls := [], events := [] }
  else
    match ext with
    | .error e =>
        { outcome := .rejected e, state := st
          calls := [.subscribeCall stream], events := [] }
    | .ok sub =>
        match st.addSubscriber sub with
        | (st2, some e) =>
            { outcome := .threw e, state := st2
              calls := [.subscribeCall stream], events := [] }
        | (st2, none) =>
            { outcome := .resolved (some sub), state := st2
              calls := [.subscribeCall stream]
              events := ("subscribeTo" ++ properCase ty) ::
                (if ty = "screen" then ["startViewingSharedScreen"] else []) }

/-- `Communication.unsubscribe(subscriber)`: computes the kind, then calls
`state.removeSubscriber(type, subscriber)` — but `State.removeSubscriber`
takes a single parameter, so the kind string is bound to it and the actual
subscriber argument is discarded.  Reading `.stream.videoType` off the
string throws inside the promise executor, rejecting the promise before
`session.unsubscribe` is reached. -/
def Communication.unsubscribe (st : State) (subscriber : Subscriber) : SubRes :=
  let ty := subscriber.stream.videoType.getD "sip"
  match st.removeSubscriber (.str ty) with
  | (st2, some e) =>
      { outcome := .rejected e, state := st2, calls := [], events := [] }
  | (st2, none) =>
      { outcome := .resolved none, state := st2
        calls := [.unsubscribeCall subscriber], events := [] }

/-- Combined completion outcome of `createPublisher` and the external
`session.publish` round-trip. -/
inductive PubExt where
  | ok (p : Publisher)
  | initErr (code : Nat) (msg : String)
  | pubErr (msg : String)
  deriving DecidableEq, Repr

/-- How the `publish` promise settles. -/
inductive PubOutcome where
  | resolvedPub (p : Option Publisher)
  | rejectedPub (e : String)
  | threwPub (e : String)
  deriving DecidableEq, Repr

/-- Result of one `publish` invocation. -/
structure PubRes where
  outcome : PubOutcome
  state : State
  calls : List ExtCall
  events : List String
  deriving DecidableEq, Repr

/-- `Communication.publish(publisherProperties)`: with `subscribeOnly` set
it resolves immediately (with `undefined`) and performs no side effects.
Otherwise `createPublisher` failure triggers an `error` event (translating
code 1010 to a connectivity hint) and rejects; `session.publish` failure
rejects without an event; success records the publisher under kind
`camera` and resolves with it. -/
def Communication.publish (subscribeOnly : Bool) (st : State)
    (ext : PubExt) : PubRes :=
  if subscribeOnly then
    { outcome := .resolvedPub none, state := st, calls := [], events := [] }
  else
    match ext with
    | .initErr _code msg =>
        { outcome := .rejectedPub msg, state := st, calls := []
          events := ["error"] }
    | .pubErr msg =>
        { outcome := .rejectedPub msg, state := st, calls := [.publishCall]
          events := [] }
    | .ok p =>
        match st.addPublisher "camera" p with
        | (st2, some e) =>
            { outcome := .threwPub e, state := st2, calls := [.publishCall]
              events := [] }
        | (st2, none) =>
            { outcome := .resolvedPub (some p), state := st2
              calls := [.publishCall], events := [] }

/-- Accumulated result of the batch of initial subscriptions issued by
`startCall`: final state, calls, events, whether any subscription promise
rejected, and whether any was left unsettled. -/
structure BatchRes where
  state : State
  calls : List ExtCall
  events : List String
  anyRej : Bool
  anyHung : Bool
  deriving Repr

/-- The `initialStreamIds.map(id => subscribe(streams[id]))` batch of
`startCall`, sequentialized (single-threaded scheduling; the claims do not
depend on completion order).  A missing or non-stream value under an id
makes that subscription reject. -/
def subscribeInitial (ids : List String) (st : State)
    (subExt : String → Except String Subscriber) : BatchRes :=
  match ids with
  | [] => { state := st, calls := [], events := [], anyRej := false, anyHung := false }
  | id :: rest =>
      let r : SubRes :=
        match st.streams.find id with
        | some (.st s) => Communication.subscribe st s false (subExt id)
        | some .junk =>
            { outcome := .rejected "TypeError", state := st, calls := [], events := [] }
        | none =>
            { outcome := .rejected "TypeError", state := st, calls := [], events := [] }
      let b := subscribeInitial rest r.state subExt
      { state := b.state
        calls := r.calls ++ b.calls
        events := r.events ++ b.events
        anyRej := (match r.outcome with | .rejected _ => true | _ => false) || b.anyRej
        anyHung := (match r.outcome with | .threw _ => true | _ => false) || b.anyHung }

/-- How the `startCall` promise settles: resolution carries the pub/sub
snapshot plus the publisher; `unsettled` embeds a promise that never
settles (an initial subscription left hanging). -/
inductive StartOutcome where
  | resolvedCall (pubs : StreamCollection Publisher)
      (subs : StreamCollection Subscriber) (publisher : Option Publisher)
  | rejectedCall (e : String)
  | unsettled (e : String)
  deriving DecidableEq, Repr

/-- Result of one `startCall` invocation; `active` is the orchestrator's
flag after the call. -/
structure StartRes where
  active : Bool
  state : State
  outcome : StartOutcome
  calls : List ExtCall
  events : List String
  deriving Repr

/-- `Communication.startCall(publisherProperties)`: sets `active = true`,
captures the pre-existing stream ids, then checks `ableToJoin()` — on
admission failure it triggers an `error` event and rejects with the
`connectionLimit` error without publishing.  Otherwise it publishes; on
publish success, with `autoSubscribe` it subscribes to every captured
stream: if any of those subscriptions rejects the failure is only logged
and the promise still resolves with the current pub/sub snapshot plus the
publisher (no `startCall` event); if all resolve it triggers `startCall`
and resolves likewise. -/
def Communication.startCall (cfg : CommConfig) (st : State)
    (pubExt : PubExt) (subExt : String → Except String Subscriber) : StartRes :=
  let initialStreamIds := st.streams.map Prod.fst
  if Communication.ableToJoin cfg.connectionLimit st.streams = false then
    { active := true, state := st
      outcome := .rejectedCall "connectionLimit"
      calls := [], events := ["error"] }
  else
    let pr := Communication.publish cfg.subscribeOnly st pubExt
    match pr.outcome with
    | .rejectedPub e =>
        { active := true, state := pr.state, outcome := .rejectedCall e
          calls := pr.calls, events := pr.events }
    | .threwPub e =>
        { active := true, state := pr.state, outcome := .unsettled e
          calls := pr.calls, events := pr.events }
    | .resolvedPub pubOpt =>
        if cfg.autoSubscribe then
          let b := subscribeInitial initialStreamIds pr.state subExt
          if b.anyRej then
            { active := true, state := b.state
              outcome := .resolvedCall b.state.publishers b.state.subscribers pubOpt
              calls := pr.calls ++ b.calls, events := pr.events ++ b.events }
          else if b.anyHung then
            { active := true, state := b.state
              outcome := .unsettled "initial subscription left unsettled"
              calls := pr.calls ++ b.calls, events := pr.events ++ b.events }
          else
            { active := true, state := b.state
              outcome := .resolvedCall b.state.publishers b.state.subscribers pubOpt
              calls := pr.calls ++ b.calls
              events := pr.events ++ b.events ++ ["startCall"] }
        else
          { active := true, state := pr.state
            outcome := .resolvedCall pr.state.publishers pr.state.subscribers pubOpt
            calls := pr.calls, events := pr.events ++ ["startCall"] }

/-- `Communication.onStreamCreated`: `this.active && this.autoSubscribe &&
this.subscribe(stream)` — subscribes to the new stream only while a call
is active and auto-subscription is enabled. -/
def Communication.onStreamCreated (active autoSubscribe : Bool) (st : State)
    (stream : Stream) (ext : Except String Subscriber) : Option SubRes :=
  if active && autoSubscribe then
    some (Communication.subscribe st stream false ext)
  else none

/-- The event registry of the session-core facade: event name to the set of
registered callbacks.  Callbacks are compared by reference identity, so
they are embedded as bare identifiers; an entry's list is kept
duplicate-free by `EventBus.on`. -/
structure EventBus where
  eventListeners : SMap (List Nat)
  deriving DecidableEq, Repr

/-- `registerEvents`: for each name not yet registered, create an empty
callback set; already-registered names (even with empty sets, which are
truthy) are left alone. -/
def EventBus.registerEvents (bus : EventBus) (eventList : List String) : EventBus :=
  { eventListeners :=
      eventList.foldl
        (fun m e => if (m.find e).isSome then m else m.upsert e []) bus.eventListeners }

/-- `on(event, callback)`: attach the callback to a registered event's set;
for an unknown event, report non-fatally and drop the attachment.  (The
object-of-callbacks overload recurses into this case per entry.) -/
def EventBus.on (bus : EventBus) (event : String) (callback : Nat) :
    EventBus × List String :=
  match bus.eventListeners.find event with
  | none => (bus, [event ++ " is not a registered event."])
  | some cbs =>
      ({ eventListeners :=
          bus.eventListeners.upsert event
            (if callback ∈ cbs then cbs else cbs ++ [callback]) }, [])

/-- Result of `triggerEvent`: the registry afterwards, the callbacks
invoked (in set-iteration order) and the informational notices printed. -/
structure TrigRes where
  bus : EventBus
  invoked : List Nat
  notices : List String
  deriving DecidableEq, Repr

/-- `triggerEvent(event, data)`: an unregistered event is auto-registered
with an informational notice and no callback runs; otherwise every
registered callback is invoked synchronously. -/
def EventBus.triggerEvent (bus : EventBus) (event : String) : TrigRes :=
  match bus.eventListeners.find event with
  | none =>
      { bus := bus.registerEvents [event]
        invoked := []
        notices := [event ++ " has been registered as a new event."] }
  | some cbs => { bus := bus, invoked := cbs, notices := [] }

/-! Concrete fixtures for the witness theorems. -/

/-- A remote camera stream. -/
def streamA : Stream := { streamId := "str1", videoType := some "camera" }

/-- A second remote camera stream. -/
def streamB : Stream := { streamId := "str2", videoType := some "camera" }

/-- A subscriber handle rendering `streamA`. -/
def subA : Subscriber := { id := "subA", stream := streamA }

/-- The local publisher's own stream. -/
def streamPub : Stream := { streamId := "strPub", videoType := some "camera" }

/-- The local camera publisher. -/
def pubA : Publisher := { id := "pubA", stream := streamPub }

/-- An empty registry. -/
def emptyColl (T : Type) : StreamCollection T :=
  { camera := [], screen := [], sip := [] }

/-- An empty session state. -/
def emptyState : State :=
  { publishers := emptyColl Publisher
    subscribers := emptyColl Subscriber
    streams := []
    streamMap := [] }

/-- A session state holding just `streamA`, with no local handles. -/
def stateA : State :=
  { emptyState with streams := [("str1", .st streamA)] }

/-- Policy configuration with a connection limit of 1. -/
def cfgLimit1 : CommConfig :=
  Communication.validateOptions
    { connectionLimit := some 1, autoSubscribe := none, subscribeOnly := none }

/-- Policy configuration with no connection limit. -/
def cfgNoLimit : CommConfig :=
  Communication.validateOptions
    { connectionLimit := none, autoSubscribe := none, subscribeOnly := none }

/-- An external-subscribe oracle that fails every subscription. -/
def subExtFail : String → Except String Subscriber :=
  fun _ => .error "subscribe failed"

/-- A subscriber handle rendering `streamB`. -/
def subB : Subscriber := { id := "subB", stream := streamB }

/-- A session state holding the two camera streams `streamA` and
`streamB`, with no local handles. -/
def stateAB : State :=
  { emptyState with streams := [("str1", .st streamA), ("str2", .st streamB)] }

/-- An external-subscribe oracle under which the subscription to
`streamB` succeeds while every other subscription fails. -/
def subExtMixed : String → Except String Subscriber :=
  fun id => if id = "str2" then .ok subB else .error "subscribe failed"

/-- Claim C8: for every constructor options value, after construction the
`autoSubscribe` policy field is `true` — the ternary
`options.autoSubscribe ? autoSubscribe : true` yields the option's value
only when it is truthy (hence `true`) and defaults to `true` otherwise, so
passing `autoSubscribe: false` still yields `true` and the policy can
never be disabled. -/
theorem Communication.autoSubscribe_always_true (o : CommOptions) :
    (Communication.validateOptions o).autoSubscribe = true := by
  cases h : o.autoSubscribe with
  | none => simp [Communication.validateOptions, h]
  | some b => cases b <;> simp [Communication.validateOptions, h]

/-- Claim C9: a `connectionLimit` of 0 (or an absent one) is falsy, so
`options.connectionLimit || null` stores `null` and `ableToJoin()` returns
`true` unconditionally — a configured limit of zero imposes no admission
restriction rather than rejecting all joins. -/
theorem Communication.connectionLimit_falsy_no_limit (o : CommOptions)
    (h : o.connectionLimit = some 0 ∨ o.connectionLimit = none) :
    (Communication.validateOptions o).connectionLimit = none ∧
    ∀ streams, Communication.ableToJoin
      (Communication.validateOptions o).connectionLimit streams = true := by
  have hnone : (Communication.validateOptions o).connectionLimit = none := by
    rcases h with h | h <;> simp [Communication.validateOptions, h]
  refine ⟨hnone, fun streams => ?_⟩
  rw [hnone]
  simp [Communication.ableToJoin]

/-- Witness for C9 at `connectionLimit = 0` with one camera stream present. -/
theorem Communication.connectionLimit_falsy_no_limit_witness :
    (Communication.validateOptions
      { connectionLimit := some 0, autoSubscribe := none,
        subscribeOnly := none }).connectionLimit = none ∧
    Communication.ableToJoin
      (Communication.validateOptions
        { connectionLimit := some 0, autoSubscribe := none,
          subscribeOnly := none }).connectionLimit stateA.streams = true :=
  ⟨(Communication.connectionLimit_falsy_no_limit _ (Or.inl rfl)).1,
   (Communication.connectionLimit_falsy_no_limit _ (Or.inl rfl)).2 stateA.streams⟩

/-- Claim C2: `ableToJoin()` is a pure predicate — `true` whenever no
connection limit is stored, and under a stored limit `n` it is `true` iff
the number of `streams` entries of media-kind `camera` is strictly below
`n`, equivalently `false` exactly when that count is at least `n`. -/
theorem Communication.ableToJoin_spec (o : CommOptions) (streams : SMap StreamsVal) :
    ((Communication.validateOptions o).connectionLimit = none →
      Communication.ableToJoin
        (Communication.validateOptions o).connectionLimit streams = true) ∧
    ∀ n, (Communication.validateOptions o).connectionLimit = some n →
      ((Communication.ableToJoin
          (Communication.validateOptions o).connectionLimit streams = true ↔
        countCameraStreams streams < n) ∧
       (Communication.ableToJoin
          (Communication.validateOptions o).connectionLimit streams = false ↔
        n ≤ countCameraStreams streams)) := by
  constructor
  · intro h
    rw [h]
    simp [Communication.ableToJoin]
  · intro n hn
    have hn0 : n ≠ 0 := by
      intro h0
      subst h0
      cases hcl : o.connectionLimit with
      | none => simp [Communication.validateOptions, hcl] at hn
      | some m =>
          by_cases hm : m = 0
          · simp [Communication.validateOptions, hcl, hm] at hn
          · simp [Communication.validateOptions, hcl, hm] at hn
    rw [hn]
    simp [Communication.ableToJoin, hn0]

/-- Witness for C2 at limit 2 with one camera stream. -/
theorem Communication.ableToJoin_spec_witness :
    (Communication.validateOptions
      { connectionLimit := some 2, autoSubscribe := none,
        subscribeOnly := none }).connectionLimit = some 2 ∧
    ((Communication.ableToJoin
        (Communication.validateOptions
          { connectionLimit := some 2, autoSubscribe := none,
            subscribeOnly := none }).connectionLimit stateA.streams = true ↔
      countCameraStreams stateA.streams < 2) ∧
     (Communication.ableToJoin
        (Communication.validateOptions
          { connectionLimit := some 2, autoSubscribe := none,
            subscribeOnly := none }).connectionLimit stateA.streams = false ↔
      2 ≤ countCameraStreams stateA.streams)) :=
  ⟨rfl, (Communication.ableToJoin_spec _ stateA.streams).2 2 rfl⟩

/-- Claim C3: when `ableToJoin()` is false, `startCall()` triggers an
`error` event, rejects with the connection-limit error, and never issues
the external publish call — the session state (in particular the publisher
registry) is untouched. -/
theorem Communication.startCall_admission_reject (cfg : CommConfig) (st : State)
    (pubExt : PubExt) (subExt : String → Except String Subscriber)
    (h : Communication.ableToJoin cfg.connectionLimit st.streams = false) :
    (Communication.startCall cfg st pubExt subExt).outcome =
      .rejectedCall "connectionLimit" ∧
    (Communication.startCall cfg st pubExt subExt).events = ["error"] ∧
    (Communication.startCall cfg st pubExt subExt).calls = [] ∧
    (Communication.startCall cfg st pubExt subExt).state = st := by
  simp [Communication.startCall, h]

/-- Witness for C3: `connectionLimit = 1` with one camera stream already
known to the session. -/
theorem Communication.startCall_admission_reject_witness :
    Communication.ableToJoin cfgLimit1.connectionLimit stateA.streams = false ∧
    ((Communication.startCall cfgLimit1 stateA (.ok pubA) subExtFail).outcome =
      .rejectedCall "connectionLimit" ∧
    (Communication.startCall cfgLimit1 stateA (.ok pubA) subExtFail).events = ["error"] ∧
    (Communication.startCall cfgLimit1 stateA (.ok pubA) subExtFail).calls = [] ∧
    (Communication.startCall cfgLimit1 stateA (.ok pubA) subExtFail).state = stateA) :=
  ⟨by decide,
   Communication.startCall_admission_reject cfgLimit1 stateA (.ok pubA) subExtFail
     (by decide)⟩

/-- Claim C10: `startCall` sets the `active` flag before evaluating
admission and does not reset it on rejection, so after an admission-failed
`startCall` the orchestrator is still active and a subsequent
`streamCreated` event still triggers auto-subscription. -/
theorem Communication.startCall_reject_keeps_active (cfg : CommConfig) (st : State)
    (pubExt : PubExt) (subExt : String → Except String Subscriber)
    (h : Communication.ableToJoin cfg.connectionLimit st.streams = false)
    (hAuto : cfg.autoSubscribe = true) :
    (Communication.startCall cfg st pubExt subExt).active = true ∧
    (Communication.startCall cfg st pubExt subExt).outcome =
      .rejectedCall "connectionLimit" ∧
    ∀ stream ext,
      (Communication.onStreamCreated
        (Communication.startCall cfg st pubExt subExt).active
        cfg.autoSubscribe
        (Communication.startCall cfg st pubExt subExt).state
        stream ext).isSome = true := by
  simp [Communication.startCall, Communication.onStreamCreated, h, hAuto]

/-- Witness for C10: after the admission-rejected `startCall` of the C3
scenario, a `streamCreated` for a fresh stream still invokes `subscribe`. -/
theorem Communication.startCall_reject_keeps_active_witness :
    Communication.ableToJoin cfgLimit1.connectionLimit stateA.streams = false ∧
    cfgLimit1.autoSubscribe = true ∧
    ((Communication.startCall cfgLimit1 stateA (.ok pubA) subExtFail).active = true ∧
    (Communication.startCall cfgLimit1 stateA (.ok pubA) subExtFail).outcome =
      .rejectedCall "connectionLimit" ∧
    ∀ stream ext,
      (Communication.onStreamCreated
        (Communication.startCall cfgLimit1 stateA (.ok pubA) subExtFail).active
        cfgLimit1.autoSubscribe
        (Communication.startCall cfgLimit1 stateA (.ok pubA) subExtFail).state
        stream ext).isSome = true) :=
  ⟨by decide, by decide,
   Communication.startCall_reject_keeps_active cfgLimit1 stateA (.ok pubA) subExtFail
     (by decide) (by decide)⟩

/-- Claim C5 (code bug): `unsubscribe(subscriber)` passes the kind string
as the sole parameter of `State.removeSubscriber`, which then reads
`.stream.videoType` off a string and throws a TypeError inside the promise
executor.  Consequently `unsubscribe` always REJECTS, removes no registry
entry, and never reaches the external unsubscribe call — contradicting its
own documentation (`<resolve: empty>`) and the specified always-resolve
best-effort semantics. -/
theorem Communication.unsubscribe_always_rejects (st : State) (subscriber : Subscriber) :
    (Communication.unsubscribe st subscriber).outcome =
      .rejected "TypeError: cannot read videoType of undefined" ∧
    (Communication.unsubscribe st subscriber).state = st ∧
    (Communication.unsubscribe st subscriber).calls = [] := by
  simp [Communication.unsubscribe, State.removeSubscriber]

/-- Claim C7: triggering an unregistered event never invokes a callback,
emits the informational notice, auto-registers the name with an empty
callback set, and a subsequent `on(name, cb)` followed by another trigger
invokes exactly `cb`. -/
theorem EventBus.trigger_unregistered_safe (bus : EventBus) (name : String) (cb : Nat)
    (h : bus.eventListeners.find name = none) :
    (bus.triggerEvent name).invoked = [] ∧
    (bus.triggerEvent name).notices =
      [name ++ " has been registered as a new event."] ∧
    (bus.triggerEvent name).bus.eventListeners.find name = some [] ∧
    ((((bus.triggerEvent name).bus.on name cb).1).triggerEvent name).invoked = [cb] := by
  have h1 : (bus.triggerEvent name).bus.eventListeners.find name = some [] := by
    simp [EventBus.triggerEvent, EventBus.registerEvents, h]
  refine ⟨by simp [EventBus.triggerEvent, h], by simp [EventBus.triggerEvent, h], h1, ?_⟩
  have h2 : (((bus.triggerEvent name).bus.on name cb).1).eventListeners.find name =
      some [cb] := by
    simp [EventBus.on, h1]
  generalize hB : ((bus.triggerEvent name).bus.on name cb).1 = B2 at h2
  simp [EventBus.triggerEvent, h2]

/-- Witness for C7: a fresh bus, event `"bar"`, callback `0`. -/
theorem EventBus.trigger_unregistered_safe_witness :
    (EventBus.mk []).eventListeners.find "bar" = none ∧
    (((EventBus.mk []).triggerEvent "bar").invoked = [] ∧
    ((EventBus.mk []).triggerEvent "bar").notices =
      ["bar has been registered as a new event."] ∧
    ((EventBus.mk []).triggerEvent "bar").bus.eventListeners.find "bar" = some [] ∧
    (((((EventBus.mk []).triggerEvent "bar").bus.on "bar" 0).1).triggerEvent
      "bar").invoked = [0]) :=
  ⟨rfl, EventBus.trigger_unregistered_safe (EventBus.mk []) "bar" 0 rfl⟩

/-- Claim C1: once a first `subscribe(stream)` has registered a subscriber
handle, a second `subscribe(stream)` without an intervening `removeStream`
(and with `networkTest` false) resolves with that same handle, leaves the
subscriber registry and the `streamMap` untouched, and issues no second
external subscribe call (the external outcome parameter of the second call
is never consulted).  The kind hypothesis restricts to streams whose
media-kind has a registry collection — exactly the streams for which the
first call can register a handle at all — and the handle id is non-empty
(the JS-truthiness precondition of the mapped-entry check; the external
SDK never issues empty ids). -/
theorem Communication.subscribe_idempotent
    (st0 : State) (stream : Stream) (sub : Subscriber) (k : String)
    (ext2 : Except String Subscriber)
    (hk : stream.videoType = some k)
    (hb : k = "camera" ∨ k = "screen" ∨ k = "sip")
    (hsub : sub.stream = stream)
    (hid : sub.id ≠ "")
    (h0 : st0.streamMap.find stream.streamId = none) :
    (Communication.subscribe st0 stream false (.ok sub)).outcome =
      .resolved (some sub) ∧
    (Communication.subscribe
        (Communication.subscribe st0 stream false (.ok sub)).state
        stream false ext2).outcome = .resolved (some sub) ∧
    (Communication.subscribe
        (Communication.subscribe st0 stream false (.ok sub)).state
        stream false ext2).state.subscribers =
      (Communication.subscribe st0 stream false (.ok sub)).state.subscribers ∧
    (Communication.subscribe
        (Communication.subscribe st0 stream false (.ok sub)).state
        stream false ext2).state.streamMap =
      (Communication.subscribe st0 stream false (.ok sub)).state.streamMap ∧
    (Communication.subscribe
        (Communication.subscribe st0 stream false (.ok sub)).state
        stream false ext2).calls = [] := by
  rcases hb with hbk | hbk | hbk <;> subst hbk <;>
    simp [Communication.subscribe, State.addSubscriber, State.all, truthyStr,
      StreamCollection.addStream, StreamCollection.get, StreamCollection.setB,
      h0, hk, hsub, hid]

/-- Witness for C1: subscribing twice to `streamA` from the empty-handle
state; the second call's external outcome is an error, showing it is
never consulted. -/
theorem Communication.subscribe_idempotent_witness :
    stateA.streamMap.find streamA.streamId = none ∧
    ((Communication.subscribe stateA streamA false (.ok subA)).outcome =
      .resolved (some subA) ∧
    (Communication.subscribe
        (Communication.subscribe stateA streamA false (.ok subA)).state
        streamA false (.error "ignored")).outcome = .resolved (some subA) ∧
    (Communication.subscribe
        (Communication.subscribe stateA streamA false (.ok subA)).state
        streamA false (.error "ignored")).state.subscribers =
      (Communication.subscribe stateA streamA false (.ok subA)).state.subscribers ∧
    (Communication.subscribe
        (Communication.subscribe stateA streamA false (.ok subA)).state
        streamA false (.error "ignored")).state.streamMap =
      (Communication.subscribe stateA streamA false (.ok subA)).state.streamMap ∧
    (Communication.subscribe
        (Communication.subscribe stateA streamA false (.ok subA)).state
        streamA false (.error "ignored")).calls = []) :=
  ⟨rfl, Communication.subscribe_idempotent stateA streamA subA "camera"
    (.error "ignored") rfl (Or.inl rfl) rfl (by decide) rfl⟩

/-- Claim C4: for a stream added with `addStream` whose subscriber was
added with `addSubscriber`, `removeStream(stream)` deletes the `streams`
entry, the `streamMap` entry, and the subscriber's registry entry — no
orphaned handle remains and nothing throws.  The kind hypothesis restricts
to streams whose media-kind has a registry collection, the precondition for
`addSubscriber` to have registered the handle. -/
theorem State.removeStream_cascades
    (st0 : State) (stream : Stream) (sub : Subscriber) (k : String)
    (hk : stream.videoType = some k)
    (hb : k = "camera" ∨ k = "screen" ∨ k = "sip")
    (hsub : sub.stream = stream) :
    ((st0.addStream stream).addSubscriber sub).2 = none ∧
    (State.removeStream ((st0.addStream stream).addSubscriber sub).1 stream).2 =
      none ∧
    (State.removeStream
        ((st0.addStream stream).addSubscriber sub).1 stream).1.streams.find
      stream.streamId = none ∧
    (State.removeStream
        ((st0.addStream stream).addSubscriber sub).1 stream).1.streamMap.find
      stream.streamId = none ∧
    ((State.removeStream
        ((st0.addStream stream).addSubscriber sub).1 stream).1.subscribers.get
      k).bind (fun b => b.find sub.id) = none := by
  rcases hb with hbk | hbk | hbk <;> subst hbk <;>
    simp [State.addStream, State.addSubscriber, State.removeStream,
      State.removeSubscriber, StreamCollection.addStream, StreamCollection.get,
      StreamCollection.setB, StreamCollection.removeStream,
      SMap.find_eraseKey, hk, hsub]

/-- Witness for C4: add `streamA` and its subscriber `subA`, then remove
the stream; every trace of both is gone. -/
theorem State.removeStream_cascades_witness :
    streamA.videoType = some "camera" ∧ subA.stream = streamA ∧
    (((emptyState.addStream streamA).addSubscriber subA).2 = none ∧
    (State.removeStream ((emptyState.addStream streamA).addSubscriber subA).1
      streamA).2 = none ∧
    (State.removeStream
        ((emptyState.addStream streamA).addSubscriber subA).1
        streamA).1.streams.find streamA.streamId = none ∧
    (State.removeStream
        ((emptyState.addStream streamA).addSubscriber subA).1
        streamA).1.streamMap.find streamA.streamId = none ∧
    ((State.removeStream
        ((emptyState.addStream streamA).addSubscriber subA).1
        streamA).1.subscribers.get "camera").bind (fun b => b.find subA.id) =
      none) :=
  ⟨rfl, rfl, State.removeStream_cascades emptyState streamA subA "camera"
    rfl (Or.inl rfl) rfl⟩

/-- No kind-specific subscribed event can collide with the `error` event
name: the prefixed name is strictly longer. -/
theorem subscribeTo_ne_error (x : String) : ("subscribeTo" ++ x) ≠ "error" := by
  intro hx
  have hlen := congrArg String.length hx
  rw [String.length_append] at hlen
  have h1 : "subscribeTo".length = 11 := rfl
  have h2 : "error".length = 5 := rfl
  rw [h1, h2] at hlen
  omega

/-- No kind-specific subscribed event can collide with the `startCall`
event name: the prefixed name is strictly longer. -/
theorem subscribeTo_ne_startCall (x : String) :
    ("subscribeTo" ++ x) ≠ "startCall" := by
  intro hx
  have hlen := congrArg String.length hx
  rw [String.length_append] at hlen
  have h1 : "subscribeTo".length = 11 := rfl
  have h2 : "startCall".length = 9 := rfl
  rw [h1, h2] at hlen
  omega

/-- Behaviour of the initial-subscription batch under mixed outcomes: when
every initial id holds a genuine unmapped stream (keyed by its own id) and
its external subscription either fails or succeeds with a well-formed
subscriber of a registry kind, the batch leaves no promise unsettled,
emits neither an `error` nor a `startCall` event, and reports a rejection
as soon as at least one subscription failed. -/
theorem subscribeInitial_mixed (ids : List String) :
    ∀ (st : State) (subExt : String → Except String Subscriber),
    ids.Nodup →
    (∀ id ∈ ids, ∃ s, st.streams.find id = some (.st s) ∧ s.streamId = id ∧
        st.streamMap.find id = none ∧
        ((∃ e, subExt id = .error e) ∨
         (∃ sub, subExt id = .ok sub ∧ sub.stream = s ∧
           (s.videoType = some "camera" ∨ s.videoType = some "screen" ∨
            s.videoType = some "sip")))) →
    (subscribeInitial ids st subExt).anyHung = false ∧
    "error" ∉ (subscribeInitial ids st subExt).events ∧
    "startCall" ∉ (subscribeInitial ids st subExt).events ∧
    ((∃ id ∈ ids, ∃ e, subExt id = .error e) →
      (subscribeInitial ids st subExt).anyRej = true) := by
  induction ids with
  | nil =>
      intro st subExt _ _
      simp [subscribeInitial]
  | cons id rest ih =>
      intro st subExt hNodup h
      obtain ⟨s, hs, hsid, hm, hcase⟩ := h id (by simp)
      have hmm : st.streamMap.find s.streamId = none := by rw [hsid]; exact hm
      have hidrest : id ∉ rest := (List.nodup_cons.mp hNodup).1
      rcases hcase with ⟨e, he⟩ | ⟨sub, he, hss, hb⟩
      · -- this subscription fails: the state is unchanged
        have hone : Communication.subscribe st s false (subExt id) =
            { outcome := .rejected e, state := st
              calls := [.subscribeCall s], events := [] } := by
          simp [Communication.subscribe, truthyStr, hmm, he]
        have hrest : ∀ id2 ∈ rest, ∃ s2,
            st.streams.find id2 = some (.st s2) ∧ s2.streamId = id2 ∧
            st.streamMap.find id2 = none ∧
            ((∃ e2, subExt id2 = .error e2) ∨
             (∃ sub2, subExt id2 = .ok sub2 ∧ sub2.stream = s2 ∧
               (s2.videoType = some "camera" ∨ s2.videoType = some "screen" ∨
                s2.videoType = some "sip"))) :=
          fun id2 hid2 => h id2 (by simp [hid2])
        obtain ⟨b1, b2, b3, _⟩ := ih st subExt (List.Nodup.of_cons hNodup) hrest
        refine ⟨?_, ?_, ?_, ?_⟩
        · simp [subscribeInitial, hs, hone, b1]
        · simp [subscribeInitial, hs, hone, b2]
        · simp [subscribeInitial, hs, hone, b3]
        · intro _
          simp [subscribeInitial, hs, hone]
      · -- this subscription succeeds: the subscriber is registered
        rcases hb with hbk | hbk | hbk
        · -- camera
          have hadd : st.addSubscriber sub =
              ({ st with
                  subscribers := st.subscribers.setB "camera"
                    (st.subscribers.camera.upsert sub.id sub)
                  streamMap := st.streamMap.upsert s.streamId sub.id }, none) := by
            simp [State.addSubscriber, hss, hbk, StreamCollection.addStream,
              StreamCollection.get, StreamCollection.setB]
          have hone : Communication.subscribe st s false (subExt id) =
              { outcome := .resolved (some sub)
                state :=
                  { st with
                      subscribers := st.subscribers.setB "camera"
                        (st.subscribers.camera.upsert sub.id sub)
                      streamMap := st.streamMap.upsert s.streamId sub.id }
                calls := [.subscribeCall s]
                events := ["subscribeTo" ++ properCase "camera"] } := by
            simp [Communication.subscribe, truthyStr, hmm, he, hadd, hbk]
          have hrest : ∀ id2 ∈ rest, ∃ s2,
              ({ st with
                  subscribers := st.subscribers.setB "camera"
                    (st.subscribers.camera.upsert sub.id sub)
                  streamMap := st.streamMap.upsert s.streamId sub.id } :
                State).streams.find id2 = some (.st s2) ∧ s2.streamId = id2 ∧
              ({ st with
                  subscribers := st.subscribers.setB "camera"
                    (st.subscribers.camera.upsert sub.id sub)
                  streamMap := st.streamMap.upsert s.streamId sub.id } :
                State).streamMap.find id2 = none ∧
              ((∃ e2, subExt id2 = .error e2) ∨
               (∃ sub2, subExt id2 = .ok sub2 ∧ sub2.stream = s2 ∧
                 (s2.videoType = some "camera" ∨ s2.videoType = some "screen" ∨
                  s2.videoType = some "sip"))) := by
            intro id2 hid2
            obtain ⟨s2, hs2, hsid2, hm2, hc2⟩ := h id2 (by simp [hid2])
            have hne : id2 ≠ s.streamId := by
              rw [hsid]
              intro hq
              exact hidrest (hq ▸ hid2)
            refine ⟨s2, hs2, hsid2, ?_, hc2⟩
            simp [SMap.find_upsert, hne, hm2]
          obtain ⟨b1, b2, b3, b4⟩ :=
            ih _ subExt (List.Nodup.of_cons hNodup) hrest
          refine ⟨?_, ?_, ?_, ?_⟩
          · simp [subscribeInitial, hs, hone, b1]
          · simp [subscribeInitial, hs, hone, b2]
            exact Ne.symm (subscribeTo_ne_error _)
          · simp [subscribeInitial, hs, hone, b3]
            exact Ne.symm (subscribeTo_ne_startCall _)
          · rintro ⟨id0, hid0, e0, he0⟩
            rcases List.mem_cons.mp hid0 with h0 | h0
            · rw [h0] at he0
              rw [he] at he0
              exact absurd he0 (by simp)
            · have := b4 ⟨id0, h0, e0, he0⟩
              simp [subscribeInitial, hs, hone, this]
        · -- screen
          have hadd : st.addSubscriber sub =
              ({ st with
                  subscribers := st.subscribers.setB "screen"
                    (st.subscribers.screen.upsert sub.id sub)
                  streamMap := st.streamMap.upsert s.streamId sub.id }, none) := by
            simp [State.addSubscriber, hss, hbk, StreamCollection.addStream,
              StreamCollection.get, StreamCollection.setB]
          have hone : Communication.subscribe st s false (subExt id) =
              { outcome := .resolved (some sub)
                state :=
                  { st with
                      subscribers := st.subscribers.setB "screen"
                        (st.subscribers.screen.upsert sub.id sub)
                      streamMap := st.streamMap.upsert s.streamId sub.id }
                calls := [.subscribeCall s]
                events := ["subscribeTo" ++ properCase "screen",
                  "startViewingSharedScreen"] } := by
            simp [Communication.subscribe, truthyStr, hmm, he, hadd, hbk]
          have hrest : ∀ id2 ∈ rest, ∃ s2,
              ({ st with
                  subscribers := st.subscribers.setB "screen"
                    (st.subscribers.screen.upsert sub.id sub)
                  streamMap := st.streamMap.upsert s.streamId sub.id } :
                State).streams.find id2 = some (.st s2) ∧ s2.streamId = id2 ∧
              ({ st with
                  subscribers := st.subscribers.setB "screen"
                    (st.subscribers.screen.upsert sub.id sub)
                  streamMap := st.streamMap.upsert s.streamId sub.id } :
                State).streamMap.find id2 = none ∧
              ((∃ e2, subExt id2 = .error e2) ∨
               (∃ sub2, subExt id2 = .ok sub2 ∧ sub2.stream = s2 ∧
                 (s2.videoType = some "camera" ∨ s2.videoType = some "screen" ∨
                  s2.videoType = some "sip"))) := by
            intro id2 hid2
            obtain ⟨s2, hs2, hsid2, hm2, hc2⟩ := h id2 (by simp [hid2])
            have hne : id2 ≠ s.streamId := by
              rw [hsid]
              intro hq
              exact hidrest (hq ▸ hid2)
            refine ⟨s2, hs2, hsid2, ?_, hc2⟩
            simp [SMap.find_upsert, hne, hm2]
          obtain ⟨b1, b2, b3, b4⟩ :=
            ih _ subExt (List.Nodup.of_cons hNodup) hrest
          refine ⟨?_, ?_, ?_, ?_⟩
          · simp [subscribeInitial, hs, hone, b1]
          · simp [subscribeInitial, hs, hone, b2]
            exact Ne.symm (subscribeTo_ne_error _)
          · simp [subscribeInitial, hs, hone, b3]
            exact Ne.symm (subscribeTo_ne_startCall _)
          · rintro ⟨id0, hid0, e0, he0⟩
            rcases List.mem_cons.mp hid0 with h0 | h0
            · rw [h0] at he0
              rw [he] at he0
              exact absurd he0 (by simp)
            · have := b4 ⟨id0, h0, e0, he0⟩
              simp [subscribeInitial, hs, hone, this]
        · -- sip
          have hadd : st.addSubscriber sub =
              ({ st with
                  subscribers := st.subscribers.setB "sip"
                    (st.subscribers.sip.upsert sub.id sub)
                  streamMap := st.streamMap.upsert s.streamId sub.id }, none) := by
            simp [State.addSubscriber, hss, hbk, StreamCollection.addStream,
              StreamCollection.get, StreamCollection.setB]
          have hone : Communication.subscribe st s false (subExt id) =
              { outcome := .resolved (some sub)
                state :=
                  { st with
                      subscribers := st.subscribers.setB "sip"
                        (st.subscribers.sip.upsert sub.id sub)
                      streamMap := st.streamMap.upsert s.streamId sub.id }
                calls := [.subscribeCall s]
                events := ["subscribeTo" ++ properCase "sip"] } := by
            simp [Communication.subscribe, truthyStr, hmm, he, hadd, hbk]
          have hrest : ∀ id2 ∈ rest, ∃ s2,
              ({ st with
                  subscribers := st.subscribers.setB "sip"
                    (st.subscribers.sip.upsert sub.id sub)
                  streamMap := st.streamMap.upsert s.streamId sub.id } :
                State).streams.find id2 = some (.st s2) ∧ s2.streamId = id2 ∧
              ({ st with
                  subscribers := st.subscribers.setB "sip"
                    (st.subscribers.sip.upsert sub.id sub)
                  streamMap := st.streamMap.upsert s.streamId sub.id } :
                State).streamMap.find id2 = none ∧
              ((∃ e2, subExt id2 = .error e2) ∨
               (∃ sub2, subExt id2 = .ok sub2 ∧ sub2.stream = s2 ∧
                 (s2.videoType = some "camera" ∨ s2.videoType = some "screen" ∨
                  s2.videoType = some "sip"))) := by
            intro id2 hid2
            obtain ⟨s2, hs2, hsid2, hm2, hc2⟩ := h id2 (by simp [hid2])
            have hne : id2 ≠ s.streamId := by
              rw [hsid]
              intro hq
              exact hidrest (hq ▸ hid2)
            refine ⟨s2, hs2, hsid2, ?_, hc2⟩
            simp [SMap.find_upsert, hne, hm2]
          obtain ⟨b1, b2, b3, b4⟩ :=
            ih _ subExt (List.Nodup.of_cons hNodup) hrest
          refine ⟨?_, ?_, ?_, ?_⟩
          · simp [subscribeInitial, hs, hone, b1]
          · simp [subscribeInitial, hs, hone, b2]
            exact Ne.symm (subscribeTo_ne_error _)
          · simp [subscribeInitial, hs, hone, b3]
            exact Ne.symm (subscribeTo_ne_startCall _)
          · rintro ⟨id0, hid0, e0, he0⟩
            rcases List.mem_cons.mp hid0 with h0 | h0
            · rw [h0] at he0
              rw [he] at he0
              exact absurd he0 (by simp)
            · have := b4 ⟨id0, h0, e0, he0⟩
              simp [subscribeInitial, hs, hone, this]

/-- Claim C6: if publish succeeds during `startCall` but one or more of
the auto-subscriptions to the pre-existing streams fails (the others may
succeed or fail), `startCall` still resolves with the current pub/sub
snapshot plus the new publisher; no `error` event is emitted for the
failures (they are only logged) and no `startCall` success event fires. -/
theorem Communication.startCall_swallows_sub_failures
    (cfg : CommConfig) (st : State) (p : Publisher)
    (subExt : String → Except String Subscriber)
    (hJoin : Communication.ableToJoin cfg.connectionLimit st.streams = true)
    (hSubOnly : cfg.subscribeOnly = false)
    (hAuto : cfg.autoSubscribe = true)
    (hNodup : (st.streams.map Prod.fst).Nodup)
    (hIds : ∀ id ∈ st.streams.map Prod.fst,
        ∃ s, st.streams.find id = some (.st s) ∧ s.streamId = id ∧
          st.streamMap.find id = none ∧ id ≠ p.stream.streamId ∧
          ((∃ e, subExt id = .error e) ∨
           (∃ sub, subExt id = .ok sub ∧ sub.stream = s ∧
             (s.videoType = some "camera" ∨ s.videoType = some "screen" ∨
              s.videoType = some "sip"))))
    (hFail : ∃ id ∈ st.streams.map Prod.fst, ∃ e, subExt id = .error e) :
    (Communication.startCall cfg st (.ok p) subExt).outcome =
      .resolvedCall (Communication.startCall cfg st (.ok p) subExt).state.publishers
        (Communication.startCall cfg st (.ok p) subExt).state.subscribers (some p) ∧
    "error" ∉ (Communication.startCall cfg st (.ok p) subExt).events ∧
    "startCall" ∉ (Communication.startCall cfg st (.ok p) subExt).events := by
  have haddp : st.addPublisher "camera" p =
      ({ st with
          publishers := st.publishers.setB "camera"
            (st.publishers.camera.upsert p.id p)
          streamMap := st.streamMap.upsert p.stream.streamId p.id }, none) := by
    simp [State.addPublisher, StreamCollection.addStream, StreamCollection.get]
  set st1 : State :=
    { st with
        publishers := st.publishers.setB "camera"
          (st.publishers.camera.upsert p.id p)
        streamMap := st.streamMap.upsert p.stream.streamId p.id } with hst1
  have hpub : Communication.publish cfg.subscribeOnly st (.ok p) =
      { outcome := .resolvedPub (some p), state := st1
        calls := [.publishCall], events := [] } := by
    simp [Communication.publish, hSubOnly, haddp]
  have hIds1 : ∀ id ∈ st.streams.map Prod.fst,
      ∃ s, st1.streams.find id = some (.st s) ∧ s.streamId = id ∧
        st1.streamMap.find id = none ∧
        ((∃ e, subExt id = .error e) ∨
         (∃ sub, subExt id = .ok sub ∧ sub.stream = s ∧
           (s.videoType = some "camera" ∨ s.videoType = some "screen" ∨
            s.videoType = some "sip"))) := by
    intro id hid
    obtain ⟨s, hs, hsid, hm, hnp, hc⟩ := hIds id hid
    refine ⟨s, hs, hsid, ?_, hc⟩
    rw [hst1]
    simp [SMap.find_upsert, hnp, hm]
  obtain ⟨b1, b2, b3, b4⟩ :=
    subscribeInitial_mixed (st.streams.map Prod.fst) st1 subExt hNodup hIds1
  have hbRej : (subscribeInitial (st.streams.map Prod.fst) st1 subExt).anyRej =
      true := b4 hFail
  simp [Communication.startCall, hJoin, hpub, hAuto, hbRej, b1, b2, b3]

/-- Witness for C6 with a genuine partial failure: two pre-existing
streams, publish succeeds, the subscription to the first stream fails
while the one to the second succeeds; `startCall` still resolves with the
snapshot plus the publisher, and neither an `error` nor a `startCall`
event fires. -/
theorem Communication.startCall_swallows_sub_failures_witness :
    subExtMixed "str1" = .error "subscribe failed" ∧
    subExtMixed "str2" = .ok subB ∧
    ((Communication.startCall cfgNoLimit stateAB (.ok pubA) subExtMixed).outcome =
      .resolvedCall
        (Communication.startCall cfgNoLimit stateAB (.ok pubA) subExtMixed).state.publishers
        (Communication.startCall cfgNoLimit stateAB (.ok pubA) subExtMixed).state.subscribers
        (some pubA) ∧
    "error" ∉ (Communication.startCall cfgNoLimit stateAB (.ok pubA) subExtMixed).events ∧
    "startCall" ∉ (Communication.startCall cfgNoLimit stateAB (.ok pubA) subExtMixed).events) :=
  ⟨rfl, rfl,
   Communication.startCall_swallows_sub_failures cfgNoLimit stateAB pubA subExtMixed
     (by decide) (by decide) (by decide) (by decide)
     (by
       intro id hid
       have hcases : id = "str1" ∨ id = "str2" := by
         simpa [stateAB, emptyState] using hid
       rcases hcases with h | h <;> subst h
       · exact ⟨streamA, by decide, rfl, rfl, by decide,
           Or.inl ⟨"subscribe failed", rfl⟩⟩
       · exact ⟨streamB, by decide, rfl, rfl, by decide,
           Or.inr ⟨subB, rfl, rfl, Or.inl rfl⟩⟩)
     ⟨"str1", by decide, "subscribe failed", rfl⟩⟩

end AccCore
